import Mathlib

set_option maxRecDepth 8000

/-!
Shallow embedding of `metricsreport/metricsreport.py` (class `MetricsReport`).

Numeric values are modelled as rationals (`ℚ`).  Python's `round(x, n)` is
modelled by `roundTo` (round half to even, as Python does).  The sklearn
scoring functions whose formulas involve transcendental operations
(`roc_auc_score`, `log_loss`, `average_precision_score`, the averaged
precision/recall/F1 scores, `matthews_corrcoef`, `mean_squared_log_error`)
are external collaborators of the repository; they enter the model as a
parameter record `ScoreFns`, so every theorem about the dataflow around
them is quantified over the record.  The rational-valued sklearn formulas
used by the regression branch are embedded directly.

The filesystem effects of `save_report` / plot generation are modelled by a
state `FS` of directory paths and file paths (paths are lists of
components); `shutil.rmtree`, `os.makedirs`, `os.path.exists`,
`os.listdir` and file writes become state transformers, and a raised
`FileNotFoundError` becomes `none`.
-/

/-- Floor of a rational, computed from its normalised numerator/denominator
(`Int.fdiv` is floor division and `q.den > 0`). -/
def ratFloor (q : ℚ) : ℤ := Int.fdiv q.num (q.den : ℤ)

/-- Python's banker's rounding of a rational to the nearest integer:
round half to even. -/
def roundHalfEven (x : ℚ) : ℤ :=
  let f : ℤ := ratFloor x
  let r : ℚ := x - (f : ℚ)
  if r < 1/2 then f
  else if 1/2 < r then f + 1
  else if f % 2 = 0 then f else f + 1

/-- Python's `round(x, n)`: banker's rounding at `n` decimal places. -/
def roundTo (n : ℕ) (x : ℚ) : ℚ := (roundHalfEven (x * 10 ^ n) : ℚ) / 10 ^ n

/-- `np.mean` on a list of rationals (sum divided by length). -/
def listMean (l : List ℚ) : ℚ := l.sum / l.length

/-- `MetricsReport._determine_task_type`: `"regression"` when
`len(np.unique(y_true)) > 2`, else `"classification"`; the number of
distinct values of `y_true` is the length of `y_true.dedup`. -/
def determineTaskType (y_true : List ℚ) : String :=
  if 2 < y_true.dedup.length then "regression" else "classification"

/-- The binarisation `(self.y_pred > self.threshold).astype(int)` performed
in `MetricsReport.__init__` for classification tasks. -/
def binarize (y_pred : List ℚ) (threshold : ℚ) : List ℕ :=
  y_pred.map (fun p => if threshold < p then 1 else 0)

/-- `sklearn.metrics.confusion_matrix(y_true, y_pred_binary).ravel()`
unpacked into `tn, fp, fn, tp` (source line 105).  `confusion_matrix` uses
as labels the sorted distinct values occurring in either argument; the
unpacking into four variables succeeds exactly when the matrix is 2×2,
i.e. when there are exactly two distinct labels.  Otherwise the Python
code raises (`ValueError` on unpacking), modelled by `none`. -/
def natCastList (l : List ℕ) : List ℚ := l.map Nat.cast

def confusionRavel (y_true : List ℚ) (pred : List ℕ) : Option (ℕ × ℕ × ℕ × ℕ) :=
  let labels := (y_true ++ natCastList pred).dedup
  match labels with
  | [a, b] =>
    let l0 := min a b
    let l1 := max a b
    let pairs := y_true.zip (natCastList pred)
    some ((pairs.filter (fun x => x.1 == l0 && x.2 == l0)).length,
          (pairs.filter (fun x => x.1 == l0 && x.2 == l1)).length,
          (pairs.filter (fun x => x.1 == l1 && x.2 == l0)).length,
          (pairs.filter (fun x => x.1 == l1 && x.2 == l1)).length)
  | _ => none

/-- The external sklearn scoring functions used by `MetricsReport`; their
formulas are out of scope (transcendental / irrational), so they are
parameters of the model.  Classification scorers taking the binarised
predictions receive a `List ℕ`. -/
structure ScoreFns where
  roc_auc_score : List ℚ → List ℚ → ℚ
  log_loss : List ℚ → List ℚ → ℚ
  average_precision_score : List ℚ → List ℚ → ℚ
  accuracy_score : List ℚ → List ℕ → ℚ
  precision_score : List ℚ → List ℕ → ℚ
  recall_score : List ℚ → List ℕ → ℚ
  f1_score : List ℚ → List ℕ → ℚ
  matthews_corrcoef : List ℚ → List ℕ → ℚ
  mean_squared_log_error : List ℚ → List ℚ → ℚ

/-- A concrete environment for the external scorers, used to evaluate the
model on concrete inputs; the dataflow claims do not depend on the values
these functions return. -/
def constFns : ScoreFns :=
  ⟨fun _ _ => 0, fun _ _ => 0, fun _ _ => 0, fun _ _ => 0, fun _ _ => 0,
   fun _ _ => 0, fun _ _ => 0, fun _ _ => 0, fun _ _ => 0⟩

/-- `MetricsReport._generate_classification_metrics` (source lines 98-121):
the confusion counts are computed first; the dictionary pairs each metric
name with its rounded score, AUC / Log Loss / Average_Precision on the raw
continuous predictions, the others on the binarised predictions, and the
four confusion counts unrounded.  `none` models the `ValueError` raised
when `ravel()` does not yield four values. -/
def generateClassificationMetrics (fns : ScoreFns) (y_true y_pred : List ℚ)
    (threshold : ℚ) : Option (List (String × ℚ)) :=
  let y_pred_binary := binarize y_pred threshold
  match confusionRavel y_true y_pred_binary with
  | none => none
  | some (tn, fp, fn, tp) =>
    some [("AUC", roundTo 4 (fns.roc_auc_score y_true y_pred)),
          ("Log Loss", roundTo 4 (fns.log_loss y_true y_pred)),
          ("Average_Precision", roundTo 4 (fns.average_precision_score y_true y_pred)),
          ("Accuracy", roundTo 4 (fns.accuracy_score y_true y_pred_binary)),
          ("Precision", roundTo 4 (fns.precision_score y_true y_pred_binary)),
          ("Recall", roundTo 4 (fns.recall_score y_true y_pred_binary)),
          ("F1 Score", roundTo 4 (fns.f1_score y_true y_pred_binary)),
          ("MCC", roundTo 4 (fns.matthews_corrcoef y_true y_pred_binary)),
          ("TN", (tn : ℚ)),
          ("FP", (fp : ℚ)),
          ("FN", (fn : ℚ)),
          ("TP", (tp : ℚ))]

/-- `sklearn.metrics.mean_squared_error`. -/
def mean_squared_error (t p : List ℚ) : ℚ :=
  listMean ((t.zip p).map (fun x => (x.1 - x.2) ^ 2))

/-- `sklearn.metrics.mean_absolute_error`. -/
def mean_absolute_error (t p : List ℚ) : ℚ :=
  listMean ((t.zip p).map (fun x => |x.1 - x.2|))

/-- `sklearn.metrics.max_error`. -/
def max_error (t p : List ℚ) : ℚ :=
  ((t.zip p).map (fun x => |x.1 - x.2|)).foldr max 0

/-- `sklearn.metrics.r2_score`. -/
def r2_score (t p : List ℚ) : ℚ :=
  1 - ((t.zip p).map (fun x => (x.1 - x.2) ^ 2)).sum
      / (t.map (fun x => (x - listMean t) ^ 2)).sum

/-- Population variance, as used by `explained_variance_score`. -/
def listVar (l : List ℚ) : ℚ := listMean (l.map (fun x => (x - listMean l) ^ 2))

/-- `sklearn.metrics.explained_variance_score`. -/
def explained_variance_score (t p : List ℚ) : ℚ :=
  1 - listVar ((t.zip p).map (fun x => x.1 - x.2)) / listVar t

/-- The manual MAPE expression of source line 286:
`np.mean(np.abs((y_true - y_pred) / y_true)) * 100`
(the absolute value applies to the whole elementwise quotient). -/
def mapeRaw (t p : List ℚ) : ℚ :=
  listMean ((t.zip p).map (fun x => |(x.1 - x.2) / x.1|)) * 100

/-- `MetricsReport._generate_regression_metrics` (source lines 272-288); the
`Mean Squared Log Error` entry receives `self.y_pred_nonnegative`, the
elementwise `np.maximum(self.y_pred, 0)` computed in `__init__`
(source line 78), and every other entry receives the raw predictions. -/
def generateRegressionMetrics (fns : ScoreFns) (y_true y_pred : List ℚ) :
    List (String × ℚ) :=
  let y_pred_nonnegative := y_pred.map (fun p => max p 0)
  [("Mean Squared Error", roundTo 4 (mean_squared_error y_true y_pred)),
   ("Mean Squared Log Error", roundTo 4 (fns.mean_squared_log_error y_true y_pred_nonnegative)),
   ("Mean Absolute Error", roundTo 4 (mean_absolute_error y_true y_pred)),
   ("R^2", roundTo 4 (r2_score y_true y_pred)),
   ("Explained Variance Score", roundTo 4 (explained_variance_score y_true y_pred)),
   ("Max Error", roundTo 4 (max_error y_true y_pred)),
   ("Mean Absolute Percentage Error", roundTo 1 (mapeRaw y_true y_pred))]

/-- The metric-computing part of `MetricsReport.__init__` (source lines
63-79): determine the task type from `y_true`, then generate the metrics
dictionary for that task.  The result is the value of `self.metrics` after
a successful construction; `none` models a constructor that raises. -/
def mkMetrics (fns : ScoreFns) (y_true y_pred : List ℚ) (threshold : ℚ) :
    Option (List (String × ℚ)) :=
  if determineTaskType y_true = "classification" then
    generateClassificationMetrics fns y_true y_pred threshold
  else
    some (generateRegressionMetrics fns y_true y_pred)

/-- Value of a named metric in an optional metrics dictionary. -/
def metricValue (o : Option (List (String × ℚ))) (k : String) : Option ℚ :=
  o.bind (fun l => l.lookup k)

/-! ### Filesystem model

Paths are lists of components; `["f", "plots", "roc_curve.png"]` stands for
`f/plots/roc_curve.png`.  The current directory is the root, so the path of
the Python string `'.'` is `["."]` like any other folder name. -/

/-- `under d q` holds when the path `d` is an ancestor of (or equal to) the
path `q`: `d` is an initial segment of `q`'s components. -/
def under : List String → List String → Bool
  | [], _ => true
  | _ :: _, [] => false
  | a :: as, b :: bs => a == b && under as bs

/-- A filesystem state: the set of existing directories and the set of
existing regular files, each given by its path. -/
structure FS where
  dirs : List (List String)
  files : List (List String)
deriving DecidableEq

/-- `shutil.rmtree(p)`: remove the directory `p` and everything below it. -/
def shutilRmtree (p : List String) (fs : FS) : FS :=
  { dirs := fs.dirs.filter (fun q => !under p q),
    files := fs.files.filter (fun q => !under p q) }

/-- `os.makedirs(p)`: create the directory `p` together with any missing
ancestors. -/
def osMakedirs (p : List String) (fs : FS) : FS :=
  { fs with dirs := (List.range p.length).map (fun k => p.take (k + 1)) ++ fs.dirs }

/-- `open(p, 'w')` followed by a write: the file at `p` now exists. -/
def writeFile (p : List String) (fs : FS) : FS :=
  { fs with files := p :: fs.files }

/-- `os.listdir(p)`: the names of the immediate children of `p`, or `none`
(a raised `FileNotFoundError`) when the directory `p` does not exist. -/
def osListdir (p : List String) (fs : FS) : Option (List String) :=
  if p ∈ fs.dirs then
    some (((fs.files ++ fs.dirs).filter
            (fun q => under p q && q.length == p.length + 1)).map
          (fun q => q.getLastD ("")))
  else none

/-- The fixed classification plot names of `_classification_plots`
(source lines 251-260). -/
def classifPlotNames : List String :=
  ["class_distribution", "confusion_matrix", "precision_recall_curve",
   "roc_curve", "ks_statistic", "calibration_curve", "cumulative_gain",
   "lift_curve"]

/-- The fixed regression plot names of `_regression_plots`
(source lines 336-339). -/
def regPlotNames : List String := ["residual_plot", "predicted_vs_actual"]

/-- The `save=True` branch shared by `_classification_plots` and
`_regression_plots`: if `folder/plots` exists, `shutil.rmtree` it; then
`os.makedirs(folder + '/plots')`; then save one PNG per plot name. -/
def savePlots (names : List String) (folder : String) (fs : FS) : FS :=
  let fs1 := if [folder, "plots"] ∈ fs.dirs then shutilRmtree [folder, "plots"] fs else fs
  let fs2 := osMakedirs [folder, "plots"] fs1
  names.foldl (fun s n => writeFile [folder, "plots", n ++ ".png"] s) fs2

/-- `MetricsReport._classification_plots` (source lines 235-268) as a
filesystem transformer: with `save=False` every plot is only displayed
(`plt.show()`), touching no files. -/
def classificationPlots (save : Bool) (folder : String) (fs : FS) : FS :=
  if save then savePlots classifPlotNames folder fs else fs

/-- `MetricsReport._regression_plots` (source lines 324-346) as a
filesystem transformer. -/
def regressionPlots (save : Bool) (folder : String) (fs : FS) : FS :=
  if save then savePlots regPlotNames folder fs else fs

/-- `MetricsReport.plot_metrics` (source lines 526-533): batch display,
dispatching on the task type with `save=False`. -/
def plotMetrics (task_type : String) (fs : FS) : FS :=
  if task_type = "classification" then classificationPlots false (".") fs
  else if task_type = "regression" then regressionPlots false (".") fs
  else fs

/-- `MetricsReport.__add_plot_images_to_report` (source lines 475-488):
list `folder/plots/`, keep the names ending in `.png`, and emit one
`<img>` tag per name; `none` models the `FileNotFoundError` raised by
`os.listdir` when the directory is missing. -/
def addPlotImages (folder : String) (fs : FS) : Option String :=
  (osListdir [folder, "plots"] fs).map (fun names =>
    (names.filter (fun n => n.endsWith (".png"))).foldl
      (fun acc n => acc ++ "<img src=\"./plots/" ++ n ++ "\"></br>\n") "")

/-- `MetricsReport.__generate_html_rows` (source lines 460-473): a row per
mapping entry; a float renders as-is, anything else through `int(...)`.
In the rational model a value is "integer-valued" when its denominator is
1 (the confusion counts are the only unrounded entries). -/
def generateHtmlRows (data : List (String × ℚ)) : String :=
  data.foldl (fun acc kv =>
    acc ++ "<tr><td>" ++ kv.1 ++ "</td><td>" ++
      (if kv.2.den = 1 then toString kv.2.num else toString kv.2) ++
      "</td></tr>\n") ""

/-- The CSS block of `_generate_html_report`, abbreviated (its text is
display-only). -/
def cssText : String :=
  "<style> body \x7b font-family: Arial, sans-serif; \x7d </style>"

/-- `MetricsReport._generate_html_report` (source lines 374-458): assemble
the HTML document from the data-info table, the metrics table and the
discovered plot images.  `target_info` and `metrics` are the mappings held
by the object; the result is `none` exactly when the plot-image discovery
step raises. -/
def generateHtmlReport (task_type : String) (threshold : ℚ)
    (target_info metrics : List (String × ℚ)) (folder : String)
    (add_css : Bool) (fs : FS) : Option String :=
  (addPlotImages folder fs).map (fun images =>
    "<!DOCTYPE html><html><head>" ++ (if add_css then cssText else "") ++
    "</head><body><h1>Metrics Report</h1><h4>Type: " ++ task_type ++
    "</h4><h2>Data info</h2><table><thead><tr><th>Info</th><th>Value</th></tr></thead><tbody>" ++
    generateHtmlRows target_info ++
    "</tbody></table><h2>Metrics</h2><p><b>threshold: " ++ toString threshold ++
    "</b></p><table><thead><tr><th>Metric</th><th>Value</th></tr></thead><tbody>" ++
    generateHtmlRows metrics ++
    "</tbody></table><h2>Plots</h2>" ++ images ++ "</body></html>")

/-- `MetricsReport.save_report` (source lines 490-518) as a filesystem
transformer: recreate `folder` unless it is `'.'`, generate the plots with
`save=True`, then render and write the HTML report and its Markdown
conversion (the Markdown text is derived from a second render without
CSS).  `target_info` is the mapping computed by `__target_info` just
before the plots (a pure function of `y_true`, no filesystem effect);
`none` models a raised error, which leaves no report files written. -/
def saveReport (task_type : String) (folder name : String) (threshold : ℚ)
    (target_info metrics : List (String × ℚ)) (fs : FS) : Option FS :=
  let fs1 := if folder ≠ "." then
      osMakedirs [folder] (if [folder] ∈ fs.dirs then shutilRmtree [folder] fs else fs)
    else fs
  let fs2 := if task_type = "classification" then classificationPlots true folder fs1
    else if task_type = "regression" then regressionPlots true folder fs1
    else fs1
  (generateHtmlReport task_type threshold target_info metrics folder true fs2).bind
    (fun _html =>
      let fs3 := writeFile [folder, name ++ ".html"] fs2
      (generateHtmlReport task_type threshold target_info metrics folder false
          fs3).map
        (fun _md => writeFile [folder, name ++ ".md"] fs3))

/-- The files `save_report` is specified to leave below `folder`: the two
report documents and, inside `folder/plots`, one PNG per plot of the task
type. -/
def expectedReportFiles (task_type folder name : String) : List (List String) :=
  [folder, name ++ ".html"] :: [folder, name ++ ".md"] ::
    (if task_type = "classification" then classifPlotNames else regPlotNames).map
      (fun n => [folder, "plots", n ++ ".png"])

/-- Well-formedness of a filesystem state, as guaranteed by a real
filesystem: every proper ancestor of an existing file or directory is an
existing directory. -/
def wfFS (fs : FS) : Prop :=
  (∀ q ∈ fs.files, ∀ k, k < q.length → 0 < k → q.take k ∈ fs.dirs) ∧
  (∀ d ∈ fs.dirs, ∀ k, k < d.length → 0 < k → d.take k ∈ fs.dirs)

instance : DecidablePred wfFS := fun fs => by
  unfold wfFS
  infer_instance

/-! ### Theorems -/

/-- Claim C1: for every non-empty `y_true`, `_determine_task_type` returns
`"regression"` exactly when the number of distinct values of `y_true`
exceeds 2, and `"classification"` otherwise; in particular a sequence with
a single distinct value is classified as classification. -/
theorem determine_task_type_spec (y_true : List ℚ) (h : y_true ≠ []) :
    (determineTaskType y_true = "regression" ↔ 2 < y_true.dedup.length) ∧
    (determineTaskType y_true = "classification" ↔ y_true.dedup.length ≤ 2) ∧
    (y_true.dedup.length = 1 → determineTaskType y_true = "classification") := by
  have hne : ("regression" : String) ≠ "classification" := by decide
  unfold determineTaskType
  split_ifs with hc
  · exact ⟨⟨fun _ => hc, fun _ => rfl⟩,
      ⟨fun hs => absurd hs hne, fun hl => absurd hc (by omega)⟩,
      fun h1 => absurd hc (by omega)⟩
  · exact ⟨⟨fun hs => absurd hs.symm hne, fun hl => absurd hl hc⟩,
      ⟨fun _ => by omega, fun _ => rfl⟩, fun _ => rfl⟩

/-- Concrete instantiation of `determine_task_type_spec` at `y_true = [7, 7]`. -/
theorem determine_task_type_spec_witness :
    [(7 : ℚ), 7] ≠ [] ∧
    ((determineTaskType [(7 : ℚ), 7] = "regression" ↔ 2 < ([(7 : ℚ), 7]).dedup.length) ∧
     (determineTaskType [(7 : ℚ), 7] = "classification" ↔ ([(7 : ℚ), 7]).dedup.length ≤ 2) ∧
     (([(7 : ℚ), 7]).dedup.length = 1 → determineTaskType [(7 : ℚ), 7] = "classification")) :=
  ⟨by decide, determine_task_type_spec [(7 : ℚ), 7] (by decide)⟩

/-- Claim C9: on the empty input sequence, `_determine_task_type` returns
`"classification"` (the distinct-value count is 0, which is not greater
than 2); emptiness is not rejected at this step. -/
theorem empty_input_classification :
    determineTaskType ([] : List ℚ) = "classification" ∧
    ([] : List ℚ).dedup.length = 0 :=
  ⟨rfl, rfl⟩

/-- Claim C3: for every classification-task construction with threshold
`t`, the derived binary prediction at index `i` is 1 when `y_pred[i] > t`
and 0 otherwise (strict inequality); a score exactly equal to the
threshold maps to the negative class 0. -/
theorem binarize_threshold_strict (y_true y_pred : List ℚ) (threshold : ℚ)
    (htask : determineTaskType y_true = "classification") :
    ∀ i : ℕ,
      (binarize y_pred threshold).get? i
        = (y_pred.get? i).map (fun p => if threshold < p then 1 else 0) ∧
      (y_pred.get? i = some threshold →
        (binarize y_pred threshold).get? i = some 0) := by
  intro i
  have hmap : (binarize y_pred threshold).get? i
      = (y_pred.get? i).map (fun p => if threshold < p then 1 else 0) := by
    simp [binarize]
  refine ⟨hmap, fun h => ?_⟩
  rw [hmap, h, Option.map_some']
  simp

/-- Concrete instantiation of `binarize_threshold_strict`: with threshold
1/2, scores `[1/2, 3/4]` binarize to `[0, 1]` (equality goes negative). -/
theorem binarize_threshold_strict_witness :
    determineTaskType [(0 : ℚ), 1] = "classification" ∧
    ∀ i : ℕ,
      (binarize [(1 : ℚ)/2, 3/4] (1/2)).get? i
        = (([(1 : ℚ)/2, 3/4]).get? i).map (fun p => if 1/2 < p then 1 else 0) ∧
      (([(1 : ℚ)/2, 3/4]).get? i = some (1/2) →
        (binarize [(1 : ℚ)/2, 3/4] (1/2)).get? i = some 0) :=
  ⟨by with_unfolding_all decide,
   binarize_threshold_strict [(0 : ℚ), 1] [(1 : ℚ)/2, 3/4] (1/2)
     (by with_unfolding_all decide)⟩

/-- Claim C2: a successfully constructed metrics mapping has exactly the
12 classification keys when the task is classification, and exactly the 7
regression keys when the task is regression, in the source order. -/
theorem metrics_key_sets (fns : ScoreFns) (y_true y_pred : List ℚ)
    (threshold : ℚ) (m : List (String × ℚ))
    (hm : mkMetrics fns y_true y_pred threshold = some m) :
    (determineTaskType y_true = "classification" →
      m.map Prod.fst = ["AUC", "Log Loss", "Average_Precision", "Accuracy",
        "Precision", "Recall", "F1 Score", "MCC", "TN", "FP", "FN", "TP"]) ∧
    (determineTaskType y_true = "regression" →
      m.map Prod.fst = ["Mean Squared Error", "Mean Squared Log Error",
        "Mean Absolute Error", "R^2", "Explained Variance Score",
        "Max Error", "Mean Absolute Percentage Error"]) := by
  constructor
  · intro ht
    rw [mkMetrics, if_pos ht] at hm
    simp only [generateClassificationMetrics] at hm
    cases hcr : confusionRavel y_true (binarize y_pred threshold) with
    | none => rw [hcr] at hm; exact Option.noConfusion hm
    | some t =>
      obtain ⟨tn, fp, fn, tp⟩ := t
      rw [hcr] at hm
      injection hm with h
      subst h
      rfl
  · intro ht
    rw [mkMetrics, if_neg (by rw [ht]; decide)] at hm
    injection hm with h
    subst h
    rfl

/-- Concrete instantiation of `metrics_key_sets` on a classification
input. -/
theorem metrics_key_sets_witness :
    mkMetrics constFns [(0 : ℚ), 1] [(2 : ℚ)/10, 7/10] (1/2)
      = some [("AUC", 0), ("Log Loss", 0), ("Average_Precision", 0),
          ("Accuracy", 0), ("Precision", 0), ("Recall", 0), ("F1 Score", 0),
          ("MCC", 0), ("TN", 1), ("FP", 0), ("FN", 0), ("TP", 1)] ∧
    ([(("AUC" : String), (0 : ℚ)), ("Log Loss", 0), ("Average_Precision", 0),
        ("Accuracy", 0), ("Precision", 0), ("Recall", 0), ("F1 Score", 0),
        ("MCC", 0), ("TN", 1), ("FP", 0), ("FN", 0), ("TP", 1)]).map Prod.fst
      = ["AUC", "Log Loss", "Average_Precision", "Accuracy", "Precision",
         "Recall", "F1 Score", "MCC", "TN", "FP", "FN", "TP"] :=
  ⟨by with_unfolding_all decide,
   (metrics_key_sets constFns [(0 : ℚ), 1] [(2 : ℚ)/10, 7/10] (1/2) _
      (by with_unfolding_all decide)).1 (by with_unfolding_all decide)⟩

/-- Claim C7: in the regression metrics, `Mean Squared Log Error` is
computed from the predictions floored at 0 (`np.maximum(y_pred, 0)`),
while every other regression metric is computed from the raw, unclipped
predictions.  The statement is quantified over the external scorer
record, so the clipped array is exactly what the external
`mean_squared_log_error` receives. -/
theorem msle_clipped_others_raw (fns : ScoreFns) (y_true y_pred : List ℚ)
    (threshold : ℚ) (m : List (String × ℚ))
    (htask : determineTaskType y_true = "regression")
    (hm : mkMetrics fns y_true y_pred threshold = some m) :
    m.lookup ("Mean Squared Log Error")
      = some (roundTo 4 (fns.mean_squared_log_error y_true
          (y_pred.map (fun p => max p 0)))) ∧
    m.lookup ("Mean Squared Error")
      = some (roundTo 4 (mean_squared_error y_true y_pred)) ∧
    m.lookup ("Mean Absolute Error")
      = some (roundTo 4 (mean_absolute_error y_true y_pred)) ∧
    m.lookup ("R^2") = some (roundTo 4 (r2_score y_true y_pred)) ∧
    m.lookup ("Explained Variance Score")
      = some (roundTo 4 (explained_variance_score y_true y_pred)) ∧
    m.lookup ("Max Error") = some (roundTo 4 (max_error y_true y_pred)) ∧
    m.lookup ("Mean Absolute Percentage Error")
      = some (roundTo 1 (mapeRaw y_true y_pred)) := by
  rw [mkMetrics, if_neg (by rw [htask]; decide)] at hm
  injection hm with h
  subst h
  exact ⟨rfl, rfl, rfl, rfl, rfl, rfl, rfl⟩

/-- Concrete instantiation of `msle_clipped_others_raw` with a negative
prediction being clipped for the MSLE entry. -/
theorem msle_clipped_others_raw_witness :
    ∃ m, mkMetrics constFns [(1 : ℚ), 2, 3] [(-1 : ℚ), 2, 3] (1/2) = some m ∧
      m.lookup ("Mean Squared Log Error")
        = some (roundTo 4 (constFns.mean_squared_log_error [(1 : ℚ), 2, 3]
            (([(-1 : ℚ), 2, 3]).map (fun p => max p 0)))) := by
  have htask : determineTaskType [(1 : ℚ), 2, 3] = "regression" := by
    with_unfolding_all decide
  have hm : mkMetrics constFns [(1 : ℚ), 2, 3] [(-1 : ℚ), 2, 3] (1/2)
      = some (generateRegressionMetrics constFns [(1 : ℚ), 2, 3] [(-1 : ℚ), 2, 3]) := by
    rw [mkMetrics, if_neg (by rw [htask]; decide)]
  exact ⟨_, hm,
    (msle_clipped_others_raw constFns [(1 : ℚ), 2, 3] [(-1 : ℚ), 2, 3] (1/2)
      _ htask hm).1⟩

/-- Claim C8, counterexample: the claim's formula
`mean(|y_true - y_pred| / y_true) * 100` (absolute value on the numerator
only) disagrees with the code, which computes
`np.mean(np.abs((y_true - y_pred) / y_true)) * 100`, on the regression
input `y_true = [-1, -2, -3]`, `y_pred = [0, 0, 0]` whose targets are all
nonzero: the stored metric is 100.0 while the claim's formula yields
-100.0. -/
theorem mape_spec_formula_counterexample :
    determineTaskType [(-1 : ℚ), -2, -3] = "regression" ∧
    (∀ x ∈ [(-1 : ℚ), -2, -3], x ≠ 0) ∧
    metricValue (mkMetrics constFns [(-1 : ℚ), -2, -3] [(0 : ℚ), 0, 0] (1/2))
        ("Mean Absolute Percentage Error") = some 100 ∧
    roundTo 1 (listMean ((([(-1 : ℚ), -2, -3]).zip [(0 : ℚ), 0, 0]).map
        (fun x => |x.1 - x.2| / x.1)) * 100) = -100 ∧
    (100 : ℚ) ≠ -100 := by
  with_unfolding_all decide

/-- Claim C8 as amended: for every regression construction with all
targets nonzero, the stored `Mean Absolute Percentage Error` equals
`mean(|(y_true - y_pred) / y_true|) * 100` (absolute value over the whole
quotient) rounded to 1 decimal place, dividing by the raw targets; every
other floating regression metric is rounded to 4 decimal places. -/
theorem mape_code_formula (fns : ScoreFns) (y_true y_pred : List ℚ)
    (threshold : ℚ) (m : List (String × ℚ))
    (htask : determineTaskType y_true = "regression")
    (hz : ∀ x ∈ y_true, x ≠ 0)
    (hm : mkMetrics fns y_true y_pred threshold = some m) :
    m.lookup ("Mean Absolute Percentage Error")
      = some (roundTo 1 (listMean ((y_true.zip y_pred).map
          (fun x => |(x.1 - x.2) / x.1|)) * 100)) ∧
    m.lookup ("Mean Squared Error")
      = some (roundTo 4 (mean_squared_error y_true y_pred)) ∧
    m.lookup ("Mean Absolute Error")
      = some (roundTo 4 (mean_absolute_error y_true y_pred)) ∧
    m.lookup ("R^2") = some (roundTo 4 (r2_score y_true y_pred)) ∧
    m.lookup ("Explained Variance Score")
      = some (roundTo 4 (explained_variance_score y_true y_pred)) ∧
    m.lookup ("Max Error") = some (roundTo 4 (max_error y_true y_pred)) ∧
    m.lookup ("Mean Squared Log Error")
      = some (roundTo 4 (fns.mean_squared_log_error y_true
          (y_pred.map (fun p => max p 0)))) := by
  rw [mkMetrics, if_neg (by rw [htask]; decide)] at hm
  injection hm with h
  subst h
  exact ⟨rfl, rfl, rfl, rfl, rfl, rfl, rfl⟩

/-- Concrete instantiation of `mape_code_formula`. -/
theorem mape_code_formula_witness :
    (∀ x ∈ [(1 : ℚ), 2, 4], x ≠ 0) ∧
    ∃ m, mkMetrics constFns [(1 : ℚ), 2, 4] [(1 : ℚ), 1, 1] (1/2) = some m ∧
      m.lookup ("Mean Absolute Percentage Error")
        = some (roundTo 1 (listMean ((([(1 : ℚ), 2, 4]).zip [(1 : ℚ), 1, 1]).map
            (fun x => |(x.1 - x.2) / x.1|)) * 100)) := by
  have htask : determineTaskType [(1 : ℚ), 2, 4] = "regression" := by
    with_unfolding_all decide
  have hm : mkMetrics constFns [(1 : ℚ), 2, 4] [(1 : ℚ), 1, 1] (1/2)
      = some (generateRegressionMetrics constFns [(1 : ℚ), 2, 4] [(1 : ℚ), 1, 1]) := by
    rw [mkMetrics, if_neg (by rw [htask]; decide)]
  exact ⟨by with_unfolding_all decide, _, hm,
    (mape_code_formula constFns [(1 : ℚ), 2, 4] [(1 : ℚ), 1, 1] (1/2) _ htask
      (by with_unfolding_all decide) hm).1⟩

theorem four_filter_length (l : List (ℚ × ℚ)) (l0 l1 : ℚ) (hne : l0 ≠ l1)
    (h : ∀ x ∈ l, (x.1 = l0 ∨ x.1 = l1) ∧ (x.2 = l0 ∨ x.2 = l1)) :
    (l.filter (fun x => x.1 == l0 && x.2 == l0)).length +
      (l.filter (fun x => x.1 == l0 && x.2 == l1)).length +
      (l.filter (fun x => x.1 == l1 && x.2 == l0)).length +
      (l.filter (fun x => x.1 == l1 && x.2 == l1)).length = l.length := by
  induction l with
  | nil => simp
  | cons x xs ih =>
    have hx := h x (List.mem_cons_self x xs)
    have hxs : ∀ y ∈ xs, (y.1 = l0 ∨ y.1 = l1) ∧ (y.2 = l0 ∨ y.2 = l1) :=
      fun y hy => h y (List.mem_cons_of_mem x hy)
    have ihs := ih hxs
    rcases hx with ⟨h1 | h1, h2 | h2⟩ <;>
      simp [List.filter_cons, h1, h2, hne, Ne.symm hne] <;> omega

theorem confusionRavel_sum (y_true : List ℚ) (pred : List ℕ)
    (tn fp fn tp : ℕ) (hlen : pred.length = y_true.length)
    (h : confusionRavel y_true pred = some (tn, fp, fn, tp)) :
    tn + fp + fn + tp = y_true.length := by
  simp only [confusionRavel] at h
  rcases hd : (y_true ++ natCastList pred).dedup with
      _ | ⟨a, _ | ⟨b, _ | ⟨c, t⟩⟩⟩ <;> rw [hd] at h
  · exact Option.noConfusion h
  · exact Option.noConfusion h
  · have hab : a ≠ b := by
      have hnd := List.nodup_dedup (y_true ++ natCastList pred)
      rw [hd] at hnd
      simpa using (List.nodup_cons.mp hnd).1
    have hne : min a b ≠ max a b := by
      rcases le_total a b with hle | hle
      · rw [min_eq_left hle, max_eq_right hle]; exact hab
      · rw [min_eq_right hle, max_eq_left hle]; exact Ne.symm hab
    have hminmax : ∀ d : ℚ, d ∈ y_true ++ natCastList pred →
        d = min a b ∨ d = max a b := by
      intro d hd2
      have hdab : d = a ∨ d = b := by
        have : d ∈ [a, b] := by rw [← hd]; exact List.mem_dedup.mpr hd2
        simpa using this
      rcases le_total a b with hle | hle
      · rw [min_eq_left hle, max_eq_right hle]; exact hdab
      · rw [min_eq_right hle, max_eq_left hle]; exact Or.symm hdab
    have hmem : ∀ x ∈ y_true.zip (natCastList pred),
        (x.1 = min a b ∨ x.1 = max a b) ∧ (x.2 = min a b ∨ x.2 = max a b) := by
      intro x hxmem
      obtain ⟨x1, x2⟩ := x
      have hx12 := List.of_mem_zip hxmem
      exact ⟨hminmax x1 (List.mem_append_left _ hx12.1),
             hminmax x2 (List.mem_append_right _ hx12.2)⟩
    have hclen : (natCastList pred).length = pred.length := by
      simp [natCastList]
    have hplen : (y_true.zip (natCastList pred)).length = y_true.length := by
      rw [List.length_zip, hclen, hlen, min_self]
    have hsum := four_filter_length (y_true.zip (natCastList pred))
      (min a b) (max a b) hne hmem
    simp only [Option.some.injEq, Prod.mk.injEq] at h
    obtain ⟨h1, h2, h3, h4⟩ := h
    rw [← h1, ← h2, ← h3, ← h4, hsum, hplen]
  · exact Option.noConfusion h

/-- Claim C4: for every classification `MetricsReport` successfully
constructed from inputs of length N, the stored confusion counts are
naturals satisfying `TN + FP + FN + TP = N`.  In this functional model the
metrics mapping is a value computed once by `mkMetrics` and no operation
of the model takes or returns a modified mapping, so the equation is
preserved by all subsequent operations. -/
theorem confusion_counts_sum (fns : ScoreFns) (y_true y_pred : List ℚ)
    (threshold : ℚ) (m : List (String × ℚ))
    (hlen : y_true.length = y_pred.length)
    (htask : determineTaskType y_true = "classification")
    (hm : mkMetrics fns y_true y_pred threshold = some m) :
    ∃ tn fp fn tp : ℕ,
      m.lookup ("TN") = some (tn : ℚ) ∧ m.lookup ("FP") = some (fp : ℚ) ∧
      m.lookup ("FN") = some (fn : ℚ) ∧ m.lookup ("TP") = some (tp : ℚ) ∧
      tn + fp + fn + tp = y_true.length := by
  rw [mkMetrics, if_pos htask] at hm
  simp only [generateClassificationMetrics] at hm
  cases hcr : confusionRavel y_true (binarize y_pred threshold) with
  | none => rw [hcr] at hm; exact Option.noConfusion hm
  | some quad =>
    obtain ⟨tn, fp, fn, tp⟩ := quad
    rw [hcr] at hm
    injection hm with h
    subst h
    refine ⟨tn, fp, fn, tp, rfl, rfl, rfl, rfl, ?_⟩
    exact confusionRavel_sum y_true (binarize y_pred threshold) tn fp fn tp
      (by simp [binarize]; omega) hcr

/-- Concrete instantiation of `confusion_counts_sum`:
`y_true = [1, 0]`, `y_pred = [0.9, 0.2]`, threshold 0.5 gives
`TN = 1, FP = 0, FN = 0, TP = 1` summing to the sample count 2. -/
theorem confusion_counts_sum_witness :
    ([(1 : ℚ), 0]).length = ([(9 : ℚ)/10, 2/10]).length ∧
    determineTaskType [(1 : ℚ), 0] = "classification" ∧
    mkMetrics constFns [(1 : ℚ), 0] [(9 : ℚ)/10, 2/10] (1/2)
      = some [("AUC", 0), ("Log Loss", 0), ("Average_Precision", 0),
          ("Accuracy", 0), ("Precision", 0), ("Recall", 0), ("F1 Score", 0),
          ("MCC", 0), ("TN", 1), ("FP", 0), ("FN", 0), ("TP", 1)] ∧
    ∃ tn fp fn tp : ℕ,
      ([(("AUC" : String), (0 : ℚ)), ("Log Loss", 0), ("Average_Precision", 0),
          ("Accuracy", 0), ("Precision", 0), ("Recall", 0), ("F1 Score", 0),
          ("MCC", 0), ("TN", 1), ("FP", 0), ("FN", 0), ("TP", 1)]).lookup ("TN")
          = some (tn : ℚ) ∧
        ([(("AUC" : String), (0 : ℚ)), ("Log Loss", 0), ("Average_Precision", 0),
          ("Accuracy", 0), ("Precision", 0), ("Recall", 0), ("F1 Score", 0),
          ("MCC", 0), ("TN", 1), ("FP", 0), ("FN", 0), ("TP", 1)]).lookup ("FP")
          = some (fp : ℚ) ∧
        ([(("AUC" : String), (0 : ℚ)), ("Log Loss", 0), ("Average_Precision", 0),
          ("Accuracy", 0), ("Precision", 0), ("Recall", 0), ("F1 Score", 0),
          ("MCC", 0), ("TN", 1), ("FP", 0), ("FN", 0), ("TP", 1)]).lookup ("FN")
          = some (fn : ℚ) ∧
        ([(("AUC" : String), (0 : ℚ)), ("Log Loss", 0), ("Average_Precision", 0),
          ("Accuracy", 0), ("Precision", 0), ("Recall", 0), ("F1 Score", 0),
          ("MCC", 0), ("TN", 1), ("FP", 0), ("FN", 0), ("TP", 1)]).lookup ("TP")
          = some (tp : ℚ) ∧
        tn + fp + fn + tp = ([(1 : ℚ), 0]).length :=
  ⟨by decide, by with_unfolding_all decide, by with_unfolding_all decide,
   confusion_counts_sum constFns [(1 : ℚ), 0] [(9 : ℚ)/10, 2/10] (1/2) _
     (by decide) (by with_unfolding_all decide) (by with_unfolding_all decide)⟩

/-- Claim C6, counterexample: when the `plots` subdirectory does not
exist, the plot-image discovery step (`os.listdir`) raises instead of
rendering an empty plots section, so report generation fails on an empty
filesystem, refuting the claim that no error is raised in this case. -/
theorem plot_discovery_missing_dir_fails :
    [("report_metrics" : String), "plots"] ∉ (FS.mk [] []).dirs ∧
    addPlotImages ("report_metrics") (FS.mk [] []) = none ∧
    generateHtmlReport ("classification") (1/2) [] [] ("report_metrics") true
      (FS.mk [] []) = none := by
  refine ⟨by decide, rfl, rfl⟩

/-- Claim C6 as amended: if the `plots` subdirectory exists but contains
no PNG files, report generation succeeds and renders an empty plots
section; if the subdirectory does not exist, the discovery step raises
(see the counterexample). -/
theorem plot_discovery_empty_ok (task_type : String) (threshold : ℚ)
    (target_info metrics : List (String × ℚ)) (folder : String)
    (add_css : Bool) (fs : FS)
    (hdir : [folder, "plots"] ∈ fs.dirs)
    (hnopng : ((osListdir [folder, "plots"] fs).getD []).filter
        (fun n => n.endsWith (".png")) = []) :
    addPlotImages folder fs = some "" ∧
    (generateHtmlReport task_type threshold target_info metrics folder add_css
      fs).isSome = true := by
  have h1 : addPlotImages folder fs = some "" := by
    unfold addPlotImages
    unfold osListdir at hnopng ⊢
    rw [if_pos hdir] at hnopng ⊢
    simp only [Option.getD_some] at hnopng
    simp only [Option.map_some']
    rw [hnopng]
    rfl
  refine ⟨h1, ?_⟩
  simp [generateHtmlReport, h1]

/-- Concrete instantiation of `plot_discovery_empty_ok` on a filesystem
whose plots directory holds only a non-PNG file. -/
theorem plot_discovery_empty_ok_witness :
    [("r" : String), "plots"]
        ∈ (FS.mk [[("r" : String)], [("r" : String), "plots"]]
            [[("r" : String), "plots", "notes.txt"]]).dirs ∧
    ((osListdir [("r" : String), "plots"]
        (FS.mk [[("r" : String)], [("r" : String), "plots"]]
          [[("r" : String), "plots", "notes.txt"]])).getD []).filter
        (fun n => n.endsWith (".png")) = [] ∧
    addPlotImages ("r") (FS.mk [[("r" : String)], [("r" : String), "plots"]]
          [[("r" : String), "plots", "notes.txt"]]) = some "" :=
  ⟨by decide, by with_unfolding_all decide,
   (plot_discovery_empty_ok ("classification") 0 [] [] ("r") true
      (FS.mk [[("r" : String)], [("r" : String), "plots"]]
        [[("r" : String), "plots", "notes.txt"]])
      (by decide) (by with_unfolding_all decide)).1⟩

@[simp] theorem under_nil_left (q : List String) : under [] q = true := rfl

@[simp] theorem under_cons_nil (a : String) (as : List String) :
    under (a :: as) [] = false := rfl

@[simp] theorem under_cons_cons (a b : String) (as bs : List String) :
    under (a :: as) (b :: bs) = (a == b && under as bs) := rfl

theorem osMakedirs_single_dirs (folder : String) (fs : FS) :
    (osMakedirs [folder] fs).dirs = [folder] :: fs.dirs := rfl

theorem osMakedirs_pair_dirs (folder p2 : String) (fs : FS) :
    (osMakedirs [folder, p2] fs).dirs = [folder] :: [folder, p2] :: fs.dirs := rfl

@[simp] theorem osMakedirs_files (p : List String) (fs : FS) :
    (osMakedirs p fs).files = fs.files := rfl

@[simp] theorem writeFile_dirs (p : List String) (fs : FS) :
    (writeFile p fs).dirs = fs.dirs := rfl

@[simp] theorem writeFile_files (p : List String) (fs : FS) :
    (writeFile p fs).files = p :: fs.files := rfl

theorem foldl_write_files (names : List String) (folder : String) (s : FS) :
    ∀ q, q ∈ ((names.foldl
        (fun t n => writeFile [folder, "plots", n ++ ".png"] t) s).files) ↔
      (∃ n ∈ names, q = [folder, "plots", n ++ ".png"]) ∨ q ∈ s.files := by
  induction names generalizing s with
  | nil => simp
  | cons n ns ih =>
    intro q
    rw [List.foldl_cons, ih, writeFile_files]
    constructor
    · rintro (⟨x, hx, rfl⟩ | hq)
      · exact Or.inl ⟨x, List.mem_cons_of_mem _ hx, rfl⟩
      · rcases List.mem_cons.mp hq with h | h
        · exact Or.inl ⟨n, List.mem_cons_self _ _, h⟩
        · exact Or.inr h
    · rintro (⟨x, hx, rfl⟩ | hq)
      · rcases List.mem_cons.mp hx with h | h
        · subst h; exact Or.inr (List.mem_cons_self _ _)
        · exact Or.inl ⟨x, h, rfl⟩
      · exact Or.inr (List.mem_cons_of_mem _ hq)

theorem foldl_write_dirs (names : List String) (folder : String) (s : FS) :
    (names.foldl (fun t n => writeFile [folder, "plots", n ++ ".png"] t) s).dirs
      = s.dirs := by
  induction names generalizing s with
  | nil => rfl
  | cons n ns ih => rw [List.foldl_cons, ih]; rfl

theorem savePlots_files (names : List String) (folder : String) (fs : FS) :
    ∀ q, q ∈ (savePlots names folder fs).files ↔
      (∃ n ∈ names, q = [folder, "plots", n ++ ".png"]) ∨
      q ∈ (if [folder, "plots"] ∈ fs.dirs then
          fs.files.filter (fun r => !under [folder, "plots"] r)
        else fs.files) := by
  intro q
  simp only [savePlots]
  rw [foldl_write_files]
  by_cases hc : [folder, "plots"] ∈ fs.dirs <;>
    simp [hc, osMakedirs, shutilRmtree]

theorem savePlots_dirs (names : List String) (folder : String) (fs : FS) :
    (savePlots names folder fs).dirs =
      [folder] :: [folder, "plots"] ::
        (if [folder, "plots"] ∈ fs.dirs then
          fs.dirs.filter (fun r => !under [folder, "plots"] r)
        else fs.dirs) := by
  simp only [savePlots]
  rw [foldl_write_dirs]
  by_cases hc : [folder, "plots"] ∈ fs.dirs <;>
    · rw [osMakedirs_pair_dirs]
      simp [hc, shutilRmtree]

theorem reset_folder_files (folder : String) (fs : FS) (hwf : wfFS fs)
    (hnf : [folder] ∉ fs.files) :
    ∀ q ∈ (if [folder] ∈ fs.dirs then shutilRmtree [folder] fs else fs).files,
      under [folder] q = false := by
  intro q hq
  by_cases hd : [folder] ∈ fs.dirs
  · rw [if_pos hd] at hq
    simpa using (List.mem_filter.mp hq).2
  · rw [if_neg hd] at hq
    cases hu' : under [folder] q with
    | false => rfl
    | true =>
      exfalso
      cases q with
      | nil => simp at hu'
      | cons b bs =>
        have hb : folder = b := by
          have := hu'
          simp at this
          exact this
        subst hb
        cases bs with
        | nil => exact hnf hq
        | cons c cs =>
          have htake := hwf.1 (folder :: c :: cs) hq 1 (by simp) (by omega)
          simp [List.take] at htake
          exact hd htake

theorem reset_folder_dirs (folder : String) (fs : FS) (hwf : wfFS fs) :
    ∀ d ∈ (osMakedirs [folder]
        (if [folder] ∈ fs.dirs then shutilRmtree [folder] fs else fs)).dirs,
      under [folder] d = true → d = [folder] := by
  intro d hd hu
  rw [osMakedirs_single_dirs] at hd
  rcases List.mem_cons.mp hd with h | h
  · exact h
  · exfalso
    by_cases hdir : [folder] ∈ fs.dirs
    · rw [if_pos hdir] at h
      have := (List.mem_filter.mp h).2
      rw [hu] at this
      simp at this
    · rw [if_neg hdir] at h
      cases d with
      | nil => simp at hu
      | cons b bs =>
        have hb : folder = b := by
          simp at hu
          exact hu
        subst hb
        cases bs with
        | nil => exact hdir h
        | cons c cs =>
          have htake := hwf.2 (folder :: c :: cs) h 1 (by simp) (by omega)
          simp [List.take] at htake
          exact hdir htake

theorem classificationPlots_save (folder : String) (fs : FS) :
    classificationPlots true folder fs = savePlots classifPlotNames folder fs := rfl

theorem regressionPlots_save (folder : String) (fs : FS) :
    regressionPlots true folder fs = savePlots regPlotNames folder fs := rfl

theorem expectedReportFiles_classification (folder name : String) :
    expectedReportFiles ("classification") folder name
      = [folder, name ++ ".html"] :: [folder, name ++ ".md"] ::
          classifPlotNames.map (fun n => [folder, "plots", n ++ ".png"]) := rfl

theorem expectedReportFiles_regression (folder name : String) :
    expectedReportFiles ("regression") folder name
      = [folder, name ++ ".html"] :: [folder, name ++ ".md"] ::
          regPlotNames.map (fun n => [folder, "plots", n ++ ".png"]) := rfl

theorem report_write_spec (names : List String) (folder name : String)
    (fs1 : FS)
    (hfiles1 : ∀ q ∈ fs1.files, under [folder] q = false)
    (hdirs1 : ∀ d ∈ fs1.dirs, under [folder] d = true → d = [folder]) :
    (∀ q, (q ∈ (writeFile [folder, name ++ ".md"]
          (writeFile [folder, name ++ ".html"]
            (savePlots names folder fs1))).files ∧ under [folder] q = true) ↔
        (q = [folder, name ++ ".html"] ∨ q = [folder, name ++ ".md"] ∨
          ∃ n ∈ names, q = [folder, "plots", n ++ ".png"])) ∧
    (∀ d, (d ∈ (writeFile [folder, name ++ ".md"]
          (writeFile [folder, name ++ ".html"]
            (savePlots names folder fs1))).dirs ∧ under [folder] d = true) ↔
        (d = [folder] ∨ d = [folder, "plots"])) := by
  constructor
  · intro q
    constructor
    · rintro ⟨hq, hu⟩
      rw [writeFile_files, writeFile_files] at hq
      rcases List.mem_cons.mp hq with h | h
      · exact Or.inr (Or.inl h)
      rcases List.mem_cons.mp h with h2 | h2
      · exact Or.inl h2
      rcases (savePlots_files names folder fs1 q).mp h2 with ⟨n, hn, rfl⟩ | hin
      · exact Or.inr (Or.inr ⟨n, hn, rfl⟩)
      exfalso
      have hq1 : q ∈ fs1.files := by
        by_cases hc : [folder, "plots"] ∈ fs1.dirs
        · rw [if_pos hc] at hin; exact (List.mem_filter.mp hin).1
        · rw [if_neg hc] at hin; exact hin
      rw [hfiles1 q hq1] at hu
      exact Bool.noConfusion hu
    · intro h
      refine ⟨?_, ?_⟩
      · rw [writeFile_files, writeFile_files]
        rcases h with rfl | rfl | ⟨n, hn, rfl⟩
        · exact List.mem_cons_of_mem _ (List.mem_cons_self _ _)
        · exact List.mem_cons_self _ _
        · exact List.mem_cons_of_mem _ (List.mem_cons_of_mem _
            ((savePlots_files names folder fs1 _).mpr (Or.inl ⟨n, hn, rfl⟩)))
      · rcases h with rfl | rfl | ⟨n, hn, rfl⟩ <;> simp
  · intro d
    rw [writeFile_dirs, writeFile_dirs, savePlots_dirs]
    constructor
    · rintro ⟨hd, hu⟩
      rcases List.mem_cons.mp hd with h | h
      · exact Or.inl h
      rcases List.mem_cons.mp h with h2 | h2
      · exact Or.inr h2
      have hd1 : d ∈ fs1.dirs := by
        by_cases hc : [folder, "plots"] ∈ fs1.dirs
        · rw [if_pos hc] at h2; exact (List.mem_filter.mp h2).1
        · rw [if_neg hc] at h2; exact h2
      exact Or.inl (hdirs1 d hd1 hu)
    · rintro (rfl | rfl)
      · exact ⟨List.mem_cons_self _ _, by simp⟩
      · exact ⟨List.mem_cons_of_mem _ (List.mem_cons_self _ _), by simp⟩

/-- Claim C5: for every folder other than the current directory (and any
well-formed starting filesystem in which the folder path is not a regular
file), `save_report(folder, name)` succeeds, first destroys and recreates
`folder`, and leaves below `folder` exactly the two report files
`{folder}/{name}.html` and `{folder}/{name}.md` together with the task's
PNGs inside `{folder}/plots`; the contents below `folder` do not depend on
the prior state, so saving a report twice to the same folder leaves no
residue (plots or report files) from the first run. -/
theorem save_report_clean_overwrite (task_type folder name : String)
    (threshold : ℚ) (target_info metrics : List (String × ℚ)) (fs : FS)
    (hf : folder ≠ ".")
    (ht : task_type = "classification" ∨ task_type = "regression")
    (hwf : wfFS fs) (hnf : [folder] ∉ fs.files) :
    ∃ fs2, saveReport task_type folder name threshold target_info metrics fs
        = some fs2 ∧
      (∀ q, (q ∈ fs2.files ∧ under [folder] q = true) ↔
        q ∈ expectedReportFiles task_type folder name) ∧
      (∀ d, (d ∈ fs2.dirs ∧ under [folder] d = true) ↔
        (d = [folder] ∨ d = [folder, "plots"])) := by
  have hfiles1 := reset_folder_files folder fs hwf hnf
  have hdirs1 := reset_folder_dirs folder fs hwf
  rcases ht with rfl | rfl
  · obtain ⟨hfile_spec, hdir_spec⟩ := report_write_spec classifPlotNames folder
      name (osMakedirs [folder]
        (if [folder] ∈ fs.dirs then shutilRmtree [folder] fs else fs))
      (fun q hq => hfiles1 q hq) hdirs1
    have hpm : [folder, "plots"] ∈ (savePlots classifPlotNames folder
        (osMakedirs [folder]
          (if [folder] ∈ fs.dirs then shutilRmtree [folder] fs else fs))).dirs := by
      rw [savePlots_dirs]
      exact List.mem_cons_of_mem _ (List.mem_cons_self _ _)
    obtain ⟨s1, hs1⟩ : ∃ s, addPlotImages folder (savePlots classifPlotNames
        folder (osMakedirs [folder]
          (if [folder] ∈ fs.dirs then shutilRmtree [folder] fs else fs))) = some s := by
      unfold addPlotImages osListdir
      rw [if_pos hpm]
      exact ⟨_, rfl⟩
    obtain ⟨h1, hh1⟩ : ∃ h1, generateHtmlReport ("classification") threshold
        target_info metrics folder true (savePlots classifPlotNames folder
          (osMakedirs [folder]
            (if [folder] ∈ fs.dirs then shutilRmtree [folder] fs else fs)))
        = some h1 := by
      unfold generateHtmlReport
      rw [hs1]
      exact ⟨_, rfl⟩
    obtain ⟨s2, hs2⟩ : ∃ s, addPlotImages folder
        (writeFile [folder, name ++ ".html"] (savePlots classifPlotNames folder
          (osMakedirs [folder]
            (if [folder] ∈ fs.dirs then shutilRmtree [folder] fs else fs))))
        = some s := by
      unfold addPlotImages osListdir
      rw [writeFile_dirs, if_pos hpm]
      exact ⟨_, rfl⟩
    obtain ⟨h2, hh2⟩ : ∃ h2, generateHtmlReport ("classification") threshold
        target_info metrics folder false
        (writeFile [folder, name ++ ".html"] (savePlots classifPlotNames folder
          (osMakedirs [folder]
            (if [folder] ∈ fs.dirs then shutilRmtree [folder] fs else fs))))
        = some h2 := by
      unfold generateHtmlReport
      rw [hs2]
      exact ⟨_, rfl⟩
    refine ⟨writeFile [folder, name ++ ".md"]
        (writeFile [folder, name ++ ".html"] (savePlots classifPlotNames folder
          (osMakedirs [folder]
            (if [folder] ∈ fs.dirs then shutilRmtree [folder] fs else fs)))),
      ?_, ?_, ?_⟩
    · simp only [saveReport]
      rw [if_pos hf]
      simp only [if_true, classificationPlots_save, hh1, Option.some_bind,
        hh2, Option.map_some']
    · intro q
      rw [hfile_spec q, expectedReportFiles_classification]
      simp only [List.mem_cons, List.mem_map]
      constructor
      · rintro (rfl | rfl | ⟨n, hn, rfl⟩)
        · exact Or.inl rfl
        · exact Or.inr (Or.inl rfl)
        · exact Or.inr (Or.inr ⟨n, hn, rfl⟩)
      · rintro (rfl | rfl | ⟨n, hn, rfl⟩)
        · exact Or.inl rfl
        · exact Or.inr (Or.inl rfl)
        · exact Or.inr (Or.inr ⟨n, hn, rfl⟩)
    · intro d
      exact hdir_spec d
  · obtain ⟨hfile_spec, hdir_spec⟩ := report_write_spec regPlotNames folder
      name (osMakedirs [folder]
        (if [folder] ∈ fs.dirs then shutilRmtree [folder] fs else fs))
      (fun q hq => hfiles1 q hq) hdirs1
    have hpm : [folder, "plots"] ∈ (savePlots regPlotNames folder
        (osMakedirs [folder]
          (if [folder] ∈ fs.dirs then shutilRmtree [folder] fs else fs))).dirs := by
      rw [savePlots_dirs]
      exact List.mem_cons_of_mem _ (List.mem_cons_self _ _)
    obtain ⟨s1, hs1⟩ : ∃ s, addPlotImages folder (savePlots regPlotNames
        folder (osMakedirs [folder]
          (if [folder] ∈ fs.dirs then shutilRmtree [folder] fs else fs))) = some s := by
      unfold addPlotImages osListdir
      rw [if_pos hpm]
      exact ⟨_, rfl⟩
    obtain ⟨h1, hh1⟩ : ∃ h1, generateHtmlReport ("regression") threshold
        target_info metrics folder true (savePlots regPlotNames folder
          (osMakedirs [folder]
            (if [folder] ∈ fs.dirs then shutilRmtree [folder] fs else fs)))
        = some h1 := by
      unfold generateHtmlReport
      rw [hs1]
      exact ⟨_, rfl⟩
    obtain ⟨s2, hs2⟩ : ∃ s, addPlotImages folder
        (writeFile [folder, name ++ ".html"] (savePlots regPlotNames folder
          (osMakedirs [folder]
            (if [folder] ∈ fs.dirs then shutilRmtree [folder] fs else fs))))
        = some s := by
      unfold addPlotImages osListdir
      rw [writeFile_dirs, if_pos hpm]
      exact ⟨_, rfl⟩
    obtain ⟨h2, hh2⟩ : ∃ h2, generateHtmlReport ("regression") threshold
        target_info metrics folder false
        (writeFile [folder, name ++ ".html"] (savePlots regPlotNames folder
          (osMakedirs [folder]
            (if [folder] ∈ fs.dirs then shutilRmtree [folder] fs else fs))))
        = some h2 := by
      unfold generateHtmlReport
      rw [hs2]
      exact ⟨_, rfl⟩
    refine ⟨writeFile [folder, name ++ ".md"]
        (writeFile [folder, name ++ ".html"] (savePlots regPlotNames folder
          (osMakedirs [folder]
            (if [folder] ∈ fs.dirs then shutilRmtree [folder] fs else fs)))),
      ?_, ?_, ?_⟩
    · simp only [saveReport]
      rw [if_pos hf]
      simp only [if_true, if_false,
        if_neg (by decide : ("regression" : String) = "classification" → False),
        regressionPlots_save, hh1, Option.some_bind, hh2, Option.map_some']
    · intro q
      rw [hfile_spec q, expectedReportFiles_regression]
      simp only [List.mem_cons, List.mem_map]
      constructor
      · rintro (rfl | rfl | ⟨n, hn, rfl⟩)
        · exact Or.inl rfl
        · exact Or.inr (Or.inl rfl)
        · exact Or.inr (Or.inr ⟨n, hn, rfl⟩)
      · rintro (rfl | rfl | ⟨n, hn, rfl⟩)
        · exact Or.inl rfl
        · exact Or.inr (Or.inl rfl)
        · exact Or.inr (Or.inr ⟨n, hn, rfl⟩)
    · intro d
      exact hdir_spec d

/-- Concrete instantiation of `save_report_clean_overwrite` on a starting
filesystem holding residue (a stray PNG and an old file) inside the target
folder. -/
theorem save_report_clean_overwrite_witness :
    ("f" : String) ≠ "." ∧
    (("classification" : String) = "classification" ∨
      ("classification" : String) = "regression") ∧
    wfFS (FS.mk [[("f" : String)], [("f" : String), "plots"]]
      [[("f" : String), "plots", "stray.png"], [("f" : String), "old.txt"]]) ∧
    [("f" : String)] ∉ (FS.mk [[("f" : String)], [("f" : String), "plots"]]
      [[("f" : String), "plots", "stray.png"],
       [("f" : String), "old.txt"]]).files ∧
    ∃ fs2, saveReport ("classification") ("f") ("r") (1/2) [] []
        (FS.mk [[("f" : String)], [("f" : String), "plots"]]
          [[("f" : String), "plots", "stray.png"], [("f" : String), "old.txt"]])
        = some fs2 ∧
      (∀ q, (q ∈ fs2.files ∧ under [("f" : String)] q = true) ↔
        q ∈ expectedReportFiles ("classification") ("f") ("r")) ∧
      (∀ d, (d ∈ fs2.dirs ∧ under [("f" : String)] d = true) ↔
        (d = [("f" : String)] ∨ d = [("f" : String), "plots"])) :=
  ⟨by decide, Or.inl rfl, by decide, by decide,
   save_report_clean_overwrite ("classification") ("f") ("r") (1/2) [] []
     (FS.mk [[("f" : String)], [("f" : String), "plots"]]
       [[("f" : String), "plots", "stray.png"], [("f" : String), "old.txt"]])
     (by decide) (Or.inl rfl) (by decide) (by decide)⟩

/-- Claim C10: `plot_metrics()` (interactive display, save mode off)
performs no filesystem modification, and neither plot batch deletes or
recreates the plots directory when the save flag is off. -/
theorem plot_metrics_no_fs_change (task_type folder : String) (fs : FS) :
    plotMetrics task_type fs = fs ∧
    classificationPlots false folder fs = fs ∧
    regressionPlots false folder fs = fs := by
  refine ⟨?_, rfl, rfl⟩
  unfold plotMetrics
  split_ifs <;> rfl
